import Mathlib

/-!
Verification of the HealthPal appointment-session coordinator.

The definitions below are a shallow embedding of `AppointmentSessionService`
(src/unnamed/part_009, inlined verbatim in src/unnamed/part_001) and of the
`AppointmentSession` component's handlers (src/unnamed/part_001).  Firestore is
modelled as an explicit `Store` value; `serverTimestamp()` and
`new Date().toISOString()` become `Nat` parameters supplied at call time;
transient store failures are injected through a `NetOutcome` parameter, so that
a single total Lean function covers both the `try` branch and the `catch`
branch of each service method.  A Firestore `writeBatch` is a list of
operations applied all-or-nothing, matching Firestore's documented batch
atomicity; `updateDoc` on a missing document is an error, `deleteDoc` on a
missing document is not, matching Firestore semantics.
-/

namespace HealthPal

/-- The appointment document's session-relevant fields (created in
src/unnamed/part_008 with `sessionStatus: 'waiting'`). -/
structure AppointmentDoc where
  patientId : String
  doctorId : String
  sessionStatus : String
  sessionStartTime : Option Nat := none
  sessionEndTime : Option Nat := none
  sessionDuration : Option Nat := none
  startedBy : Option String := none
  endedBy : Option String := none
  endReason : Option String := none
deriving DecidableEq

/-- A chat message document, as written by `sendMessage`:
`timestamp` is the server-assigned time, `createdAt` the client-assigned
ISO timestamp (modelled as `Nat`; ISO-8601 strings of one format compare
identically to the instants they denote). -/
structure Message where
  senderId : String
  senderName : String
  senderRole : String
  message : String
  timestamp : Nat
  createdAt : Nat
deriving DecidableEq

/-- The slice of Firestore the coordinator touches: one appointment document
(`none` = deleted/absent) and its `messages` sub-collection in commit order. -/
structure Store where
  appointment : Option AppointmentDoc
  messages : List Message
deriving DecidableEq

/-- Outcome of the network/permission layer for one store call: `ok` lets the
operation reach the store, `failure e` makes the store call reject with `e`. -/
inductive NetOutcome where
  | ok
  | failure (msg : String)
deriving DecidableEq

/-- The `{ success, error }` result value returned by every service method. -/
structure OpResult where
  success : Bool
  error : Option String := none
deriving DecidableEq

/-- `updateDoc(appointmentRef, { sessionStatus: 'active', ... })` from
`startSession`: fails if the document is absent, otherwise merges the fields. -/
def updateStart (doctorId : String) (t : Nat) (s : Store) : Except String Store :=
  match s.appointment with
  | none => .error "No document to update"
  | some d => .ok { s with appointment := some { d with
      sessionStatus := "active",
      sessionStartTime := some t,
      sessionDuration := some 10000,
      startedBy := some doctorId } }

/-- `startSession(doctorId)`: the raw store call guarded by the network
outcome, wrapped in try/catch returning `{ success, error }`. -/
def startSessionRaw (doctorId : String) (t : Nat) (net : NetOutcome) (s : Store) :
    Except String Store :=
  match net with
  | .failure e => .error e
  | .ok => updateStart doctorId t s

/-- `startSession(doctorId)` as exposed: never throws, returns a result pair
of the `{ success, error }` value and the store as left by the call. -/
def startSession (doctorId : String) (t : Nat) (net : NetOutcome) (s : Store) :
    OpResult × Store :=
  match startSessionRaw doctorId t net s with
  | .ok s2 => ({ success := true }, s2)
  | .error e => ({ success := false, error := some e }, s)

/-- One operation queued on a Firestore `writeBatch` by `endSession`. -/
inductive BatchOp where
  | updateEnded (userId reason : String)
  | deleteAppt
deriving DecidableEq

/-- Semantics of a single batch operation.  `update` on a missing document is
an error (which fails the whole batch); `delete` always succeeds. -/
def applyOp (t : Nat) (s : Store) : BatchOp → Except String Store
  | .updateEnded uid reason =>
      match s.appointment with
      | none => .error "No document to update"
      | some d => .ok { s with appointment := some { d with
          sessionStatus := "ended",
          sessionEndTime := some t,
          endedBy := some uid,
          endReason := some reason } }
  | .deleteAppt => .ok { s with appointment := none }

/-- Sequential application of the queued operations; any error aborts. -/
def applyOps (t : Nat) : List BatchOp → Store → Except String Store
  | [], s => .ok s
  | op :: rest, s =>
      match applyOp t s op with
      | .error e => .error e
      | .ok s2 => applyOps t rest s2

/-- `batch.commit()`: all-or-nothing.  On success the returned store has every
queued operation applied; on any error the commit rejects and the store is
left exactly as it was — no intermediate state is ever observable. -/
def commitBatch (t : Nat) (net : NetOutcome) (ops : List BatchOp) (s : Store) :
    Except String Store :=
  match net with
  | .failure e => .error e
  | .ok => applyOps t ops s

/-- The batch built by `endSession`: the status/endedBy/endReason update
followed by the delete of the same appointment document. -/
def endSessionBatch (userId reason : String) : List BatchOp :=
  [.updateEnded userId reason, .deleteAppt]

/-- `endSession(userId, reason)`: builds the two-operation batch, commits it,
and wraps the outcome in `{ success, error }` via try/catch. -/
def endSession (userId reason : String) (t : Nat) (net : NetOutcome) (s : Store) :
    OpResult × Store :=
  match commitBatch t net (endSessionBatch userId reason) s with
  | .ok s2 => ({ success := true }, s2)
  | .error e => ({ success := false, error := some e }, s)

/-- Helper: `endSession` either leaves the store untouched (failed commit) or
deletes the appointment document, and the result value reports which. -/
theorem endSession_cases (userId reason : String) (t : Nat) (net : NetOutcome)
    (s : Store) :
    ((endSession userId reason t net s).1.success = true ∧
      (endSession userId reason t net s).2 = { s with appointment := none }) ∨
    ((endSession userId reason t net s).1.success = false ∧
      (endSession userId reason t net s).1.error.isSome = true ∧
      (endSession userId reason t net s).2 = s) := by
  cases net with
  | failure e =>
      right
      simp [endSession, commitBatch]
  | ok =>
      cases ha : s.appointment with
      | none =>
          right
          simp [endSession, commitBatch, endSessionBatch, applyOps, applyOp, ha]
      | some d =>
          left
          simp [endSession, commitBatch, endSessionBatch, applyOps, applyOp, ha]

/-- C1: a successful `endSession` is one atomic batch of exactly two
operations on the appointment document — the `ended` field update and the
delete — and the commit is all-or-nothing: the post state is either the
store with the whole batch applied (document gone) or the unchanged store,
never a state with the `ended` update committed but the delete not. -/
theorem endSession_atomic_two_ops (userId reason : String) (t : Nat)
    (net : NetOutcome) (s : Store) :
    endSessionBatch userId reason =
      [BatchOp.updateEnded userId reason, BatchOp.deleteAppt] ∧
    (((endSession userId reason t net s).1.success = true ∧
       (endSession userId reason t net s).2 = { s with appointment := none }) ∨
     ((endSession userId reason t net s).1.success = false ∧
       (endSession userId reason t net s).2 = s)) := by
  refine ⟨rfl, ?_⟩
  rcases endSession_cases userId reason t net s with ⟨h1, h2⟩ | ⟨h1, _, h3⟩
  · exact Or.inl ⟨h1, h2⟩
  · exact Or.inr ⟨h1, h3⟩

/-- The message document written by `sendMessage`: `tServer` is the
`serverTimestamp()` value, `tClient` the `new Date().toISOString()` value. -/
def mkMessage (senderId senderName senderRole messageText : String)
    (tServer tClient : Nat) : Message :=
  { senderId := senderId, senderName := senderName, senderRole := senderRole,
    message := messageText, timestamp := tServer, createdAt := tClient }

/-- `addDoc(messagesRef, {...})` guarded by the network outcome: appends the
new message document to the sub-collection in commit order. -/
def sendMessageRaw (senderId senderName senderRole messageText : String)
    (tServer tClient : Nat) (net : NetOutcome) (s : Store) : Except String Store :=
  match net with
  | .failure e => .error e
  | .ok => .ok { s with
      messages := s.messages ++
        [mkMessage senderId senderName senderRole messageText tServer tClient] }

/-- `sendMessage(senderId, senderName, senderRole, messageText)` as exposed:
no input validation of any kind, try/catch wrapping into `{ success, error }`. -/
def sendMessage (senderId senderName senderRole messageText : String)
    (tServer tClient : Nat) (net : NetOutcome) (s : Store) : OpResult × Store :=
  match sendMessageRaw senderId senderName senderRole messageText tServer tClient net s with
  | .ok s2 => ({ success := true }, s2)
  | .error e => ({ success := false, error := some e }, s)

/-- The argument handed to the `subscribeToAppointment` callback:
`{ exists: true, data }`, `{ exists: false, data: null }`, or on a stream
error `{ exists: false, data: null, error }`. -/
structure ApptSnapshot where
  docExists : Bool
  data : Option AppointmentDoc
  error : Option String := none
deriving DecidableEq

/-- One delivery on a live subscription: either a snapshot of the current
store, or the error branch of `onSnapshot`. -/
inductive SubEvent where
  | snapshot (s : Store)
  | failure (msg : String)
deriving DecidableEq

/-- What `subscribeToAppointment` passes to its callback for each event. -/
def appointmentCallbackArg : SubEvent → ApptSnapshot
  | .snapshot s =>
      match s.appointment with
      | some d => { docExists := true, data := some d }
      | none => { docExists := false, data := none }
  | .failure e => { docExists := false, data := none, error := some e }

/-- The display order used by `subscribeToMessages`:
`query(messagesRef, orderBy("createdAt", "asc"))`. -/
def msgLe (a b : Message) : Prop := a.createdAt ≤ b.createdAt

instance : DecidableRel msgLe := fun a b => Nat.decLe a.createdAt b.createdAt

instance : IsTotal Message msgLe := ⟨fun a b => Nat.le_total a.createdAt b.createdAt⟩

instance : IsTrans Message msgLe := ⟨fun _ _ _ h1 h2 => Nat.le_trans h1 h2⟩

/-- The ordered view of the sub-collection produced by the store's
`orderBy("createdAt", "asc")` query. -/
def sortByCreatedAt (l : List Message) : List Message := List.insertionSort msgLe l

/-- What `subscribeToMessages` passes to its callback: the full message list
in `createdAt` order for a snapshot, and the empty list on a stream error. -/
def messagesCallbackArg : SubEvent → List Message
  | .snapshot s => sortByCreatedAt s.messages
  | .failure _ => []

/-- Two sorted lists that are permutations of each other are equal when the
sort keys on one of them are pairwise distinct. -/
theorem eq_of_perm_sorted_distinct (l1 l2 : List Message) (hp : l1.Perm l2)
    (hs1 : l1.Sorted msgLe) (hs2 : l2.Sorted msgLe)
    (hd : l2.Pairwise fun a b => a.createdAt ≠ b.createdAt) : l1 = l2 := by
  induction l1 generalizing l2 with
  | nil => exact (hp.symm.eq_nil).symm
  | cons a t1 ih =>
      cases l2 with
      | nil => exact absurd hp.eq_nil (by simp)
      | cons b t2 =>
          rcases List.sorted_cons.mp hs1 with ⟨ha1, hs1t⟩
          rcases List.sorted_cons.mp hs2 with ⟨hb2, hs2t⟩
          rcases List.pairwise_cons.mp hd with ⟨hd1, hdt⟩
          by_cases hab : a = b
          · subst hab
            rw [ih t2 hp.cons_inv hs1t hs2t hdt]
          · have hat2 : a ∈ t2 := by
              rcases List.mem_cons.mp (hp.mem_iff.mp (List.mem_cons_self a t1)) with h | h
              · exact absurd h hab
              · exact h
            have hbt1 : b ∈ t1 := by
              rcases List.mem_cons.mp (hp.symm.mem_iff.mp (List.mem_cons_self b t2)) with h | h
              · exact absurd h.symm hab
              · exact h
            have h1 : msgLe a b := ha1 b hbt1
            have h2 : msgLe b a := hb2 a hat2
            exact absurd (Nat.le_antisymm h2 h1) (hd1 a hat2)

/-- C4: for messages with pairwise-distinct client timestamps T1 < T2 < T3,
whatever the commit order of the sends (any permutation stored by
`sendMessage` appends), the list delivered to the `subscribeToMessages`
callback is exactly the three messages in T1, T2, T3 order. -/
theorem messages_delivered_in_createdAt_order (m1 m2 m3 : Message)
    (a : Option AppointmentDoc) (l : List Message)
    (h12 : m1.createdAt < m2.createdAt) (h23 : m2.createdAt < m3.createdAt)
    (hp : l.Perm [m1, m2, m3]) :
    messagesCallbackArg (SubEvent.snapshot { appointment := a, messages := l }) =
      [m1, m2, m3] := by
  have hperm : (sortByCreatedAt l).Perm [m1, m2, m3] :=
    (List.perm_insertionSort msgLe l).trans hp
  have hs1 : (sortByCreatedAt l).Sorted msgLe := List.sorted_insertionSort msgLe l
  have hs2 : ([m1, m2, m3] : List Message).Sorted msgLe := by
    simp [List.sorted_cons, msgLe]
    omega
  have hd : ([m1, m2, m3] : List Message).Pairwise
      (fun x y => x.createdAt ≠ y.createdAt) := by
    simp [List.pairwise_cons]
    omega
  simpa [messagesCallbackArg] using
    eq_of_perm_sorted_distinct (sortByCreatedAt l) [m1, m2, m3] hperm hs1 hs2 hd

/-- A concrete patient message with `createdAt = 1`. -/
def msgA : Message :=
  { senderId := "p1", senderName := "Pat", senderRole := "patient",
    message := "hello", timestamp := 11, createdAt := 1 }

/-- A concrete doctor message with `createdAt = 2`. -/
def msgB : Message :=
  { senderId := "d1", senderName := "Doc", senderRole := "doctor",
    message := "hi", timestamp := 10, createdAt := 2 }

/-- A concrete patient message with `createdAt = 3`. -/
def msgC : Message :=
  { senderId := "p1", senderName := "Pat", senderRole := "patient",
    message := "thanks", timestamp := 13, createdAt := 3 }

/-- Witness for C4: the sends committed in the order C, A, B are still
delivered as A, B, C. -/
theorem messages_delivered_in_createdAt_order_witness :
    messagesCallbackArg
        (SubEvent.snapshot { appointment := none, messages := [msgC, msgA, msgB] }) =
      [msgA, msgB, msgC] :=
  messages_delivered_in_createdAt_order msgA msgB msgC none [msgC, msgA, msgB]
    (by decide) (by decide)
    ((List.Perm.swap msgA msgC [msgB]).trans
      (List.Perm.cons msgA (List.Perm.swap msgB msgC [])))

/-- Whitespace test used by JavaScript's `String.prototype.trim` (the ASCII
cases, which are the only ones this code base produces). -/
def isWs (ch : Char) : Bool := ch = ' ' || ch = '\t' || ch = '\n' || ch = '\r'

/-- Strip leading and trailing whitespace from a character list. -/
def trimChars (l : List Char) : List Char :=
  ((l.dropWhile isWs).reverse.dropWhile isWs).reverse

/-- Model of JavaScript's `text.trim()`. -/
def jsTrim (s : String) : String := String.mk (trimChars s.data)

/-- The `AppointmentSession` component's local state relevant to the claims
(src/unnamed/part_001): the `sessionHasEnded` flag, the two timer handles
(`countdownRef` interval, `timerRef` deadline timeout, each modelled by
whether a live handle is held), the last-observed `sessionStatus` and
appointment data, the error banner, and the shared store it writes through. -/
structure ComponentState where
  sessionHasEnded : Bool
  countdownActive : Bool
  deadlinePending : Bool
  sessionStatus : String
  appointmentData : Option AppointmentDoc
  errorMsg : Option String
  store : Store
deriving DecidableEq

/-- `handleEndSession(reason)`: early-returns if the session already ended
locally; otherwise sets the flag, clears the countdown interval and the
deadline timeout, then awaits `endSession`, surfacing a failure as an inline
error message. -/
def handleEndSession (uid reason : String) (t : Nat) (net : NetOutcome)
    (c : ComponentState) : ComponentState :=
  if c.sessionHasEnded then c
  else
    { c with
      sessionHasEnded := true,
      countdownActive := false,
      deadlinePending := false,
      store := (endSession uid reason t net c.store).2,
      errorMsg :=
        if (endSession uid reason t net c.store).1.success then c.errorMsg
        else some ("Failed to end session: " ++
          ((endSession uid reason t net c.store).1.error.getD "")) }

/-- The deadline timeout armed by `startCountdown` firing: it can only fire
while the handle is still pending (a cleared timeout never runs), consumes
itself, and invokes `handleEndSession('time_up')`. -/
def fireDeadline (uid : String) (t : Nat) (net : NetOutcome)
    (c : ComponentState) : ComponentState :=
  if c.deadlinePending then
    handleEndSession uid "time_up" t net { c with deadlinePending := false }
  else c

/-- `handleSendMessage`: returns without any store call when the input is
empty after trimming, the session is not active, or it has ended; otherwise
sends the trimmed text through `sendMessage`. -/
def handleSendMessage (uid name role newMessage : String) (tServer tClient : Nat)
    (net : NetOutcome) (c : ComponentState) : ComponentState :=
  if jsTrim newMessage == "" || c.sessionStatus != "active" || c.sessionHasEnded then c
  else
    { c with
      store := (sendMessage uid name role (jsTrim newMessage) tServer tClient net c.store).2,
      errorMsg :=
        if (sendMessage uid name role (jsTrim newMessage) tServer tClient net c.store).1.success
        then c.errorMsg
        else some ("Failed to send message: " ++
          ((sendMessage uid name role (jsTrim newMessage) tServer tClient net c.store).1.error.getD "")) }

/-- The doctor auto-start effect (src/unnamed/part_001 lines 230-240): calls
`startSession` only when the client is the doctor, the last-observed
appointment data has `sessionStatus === 'waiting'`, and the session has not
ended locally. -/
def maybeAutoStart (isDoctor : Bool) (uid : String) (t : Nat) (net : NetOutcome)
    (c : ComponentState) : ComponentState :=
  match c.appointmentData with
  | some d =>
      if isDoctor && (d.sessionStatus == "waiting") && !c.sessionHasEnded then
        { c with
          store := (startSession uid t net c.store).2,
          errorMsg :=
            if (startSession uid t net c.store).1.success then c.errorMsg
            else some ("Failed to start session: " ++
              ((startSession uid t net c.store).1.error.getD "")) }
      else c
  | none => c

/-- A concrete appointment document already in the `active` state with
`sessionStartTime = 5`. -/
def exActiveDoc : AppointmentDoc :=
  { patientId := "p1", doctorId := "d1", sessionStatus := "active",
    sessionStartTime := some 5, sessionDuration := some 10000,
    startedBy := some "d1" }

/-- A concrete store holding that active appointment. -/
def exActiveStore : Store := { appointment := some exActiveDoc, messages := [] }

/-- A concrete store with no appointment document and no messages. -/
def emptyStore : Store := { appointment := none, messages := [] }

/-- A concrete component state mid-session: active, timers armed, not ended. -/
def exLiveComp : ComponentState :=
  { sessionHasEnded := false, countdownActive := true, deadlinePending := true,
    sessionStatus := "active", appointmentData := some exActiveDoc,
    errorMsg := none, store := exActiveStore }

/-- Counterexample to C3: the service-level `startSession` has no status
guard.  Called on an appointment that is already `active` with
`sessionStartTime = 5`, the second call succeeds (is neither a no-op nor
rejected) and rewrites `sessionStartTime` to the new server time `7`. -/
theorem startSession_rewrites_startTime :
    (startSession "d1" 7 NetOutcome.ok exActiveStore).1.success = true ∧
    exActiveStore.appointment.map AppointmentDoc.sessionStartTime = some (some 5) ∧
    (startSession "d1" 7 NetOutcome.ok exActiveStore).2.appointment.map
      AppointmentDoc.sessionStartTime = some (some 7) :=
  ⟨rfl, rfl, rfl⟩

/-- C3 (amended): the only idempotency guard is in the caller — the doctor
auto-start effect invokes `startSession` solely when the last-observed
`sessionStatus` is `'waiting'`, so once any other status (in particular
`'active'`) has been observed, the effect performs no write at all. -/
theorem autoStart_gated_on_observed_waiting (isDoctor : Bool) (uid : String)
    (t : Nat) (net : NetOutcome) (c : ComponentState) (d : AppointmentDoc)
    (hobs : c.appointmentData = some d) (hstat : d.sessionStatus ≠ "waiting") :
    maybeAutoStart isDoctor uid t net c = c := by
  simp [maybeAutoStart, hobs, hstat]

/-- Witness for the amended C3: with `active` already observed, the doctor
auto-start effect leaves the component state and the store untouched. -/
theorem autoStart_gated_on_observed_waiting_witness :
    maybeAutoStart true "d1" 7 NetOutcome.ok exLiveComp = exLiveComp :=
  autoStart_gated_on_observed_waiting true "d1" 7 NetOutcome.ok exLiveComp
    exActiveDoc rfl (by decide)

/-- C5: a manual end while the deadline timer is still pending (elapsed time
strictly below the duration) clears both timer resources, and the deadline
can no longer fire: a subsequent deadline event is a no-op, so no
`endSession('time_up')` ever runs afterwards. -/
theorem manual_end_cancels_deadline (uid uid2 : String) (t t2 : Nat)
    (net net2 : NetOutcome) (c : ComponentState)
    (hEnded : c.sessionHasEnded = false) (_hPending : c.deadlinePending = true) :
    (handleEndSession uid "manual" t net c).countdownActive = false ∧
    (handleEndSession uid "manual" t net c).deadlinePending = false ∧
    fireDeadline uid2 t2 net2 (handleEndSession uid "manual" t net c) =
      handleEndSession uid "manual" t net c := by
  have h1 : (handleEndSession uid "manual" t net c).deadlinePending = false := by
    simp [handleEndSession, hEnded]
  have h2 : (handleEndSession uid "manual" t net c).countdownActive = false := by
    simp [handleEndSession, hEnded]
  exact ⟨h2, h1, by simp [fireDeadline, h1]⟩

/-- Witness for C5 at a concrete mid-session state. -/
theorem manual_end_cancels_deadline_witness :
    (handleEndSession "p1" "manual" 9 NetOutcome.ok exLiveComp).countdownActive = false ∧
    (handleEndSession "p1" "manual" 9 NetOutcome.ok exLiveComp).deadlinePending = false ∧
    fireDeadline "p1" 10 NetOutcome.ok (handleEndSession "p1" "manual" 9 NetOutcome.ok exLiveComp) =
      handleEndSession "p1" "manual" 9 NetOutcome.ok exLiveComp :=
  manual_end_cancels_deadline "p1" "p1" 9 10 NetOutcome.ok NetOutcome.ok exLiveComp rfl rfl

/-- Counterexample to C6: the service-level `sendMessage` performs no
validation.  Called with text that is empty (hence empty after trimming), it
succeeds and appends a message document with empty body to the store. -/
theorem sendMessage_appends_empty_text :
    (sendMessage "p1" "Pat" "patient" "" 3 4 NetOutcome.ok emptyStore).1.success = true ∧
    (sendMessage "p1" "Pat" "patient" "" 3 4 NetOutcome.ok emptyStore).2.messages =
      [mkMessage "p1" "Pat" "patient" "" 3 4] :=
  ⟨rfl, rfl⟩

/-- C6 (amended): the empty-after-trim rejection lives in the caller.
`handleSendMessage` returns with no store call whenever the input trims to
empty; when the input trims to non-empty and the session is active and not
locally ended, the trimmed message is appended.  `sendMessage` itself
validates nothing. -/
theorem send_rejected_locally_in_handler (uid name role msg : String)
    (tServer tClient : Nat) (net : NetOutcome) (c : ComponentState) :
    (jsTrim msg = "" → handleSendMessage uid name role msg tServer tClient net c = c) ∧
    (jsTrim msg ≠ "" → c.sessionStatus = "active" → c.sessionHasEnded = false →
      (handleSendMessage uid name role msg tServer tClient NetOutcome.ok c).store.messages =
        c.store.messages ++ [mkMessage uid name role (jsTrim msg) tServer tClient]) := by
  constructor
  · intro h
    simp [handleSendMessage, h]
  · intro h1 h2 h3
    simp [handleSendMessage, h1, h2, h3, sendMessage, sendMessageRaw]

/-- Witness for the amended C6: an all-whitespace input is dropped with no
store call; an input with surrounding whitespace is appended trimmed. -/
theorem send_rejected_locally_in_handler_witness :
    handleSendMessage "p1" "Pat" "patient" "   " 3 4 NetOutcome.ok exLiveComp = exLiveComp ∧
    (handleSendMessage "p1" "Pat" "patient" " hi " 5 6 NetOutcome.ok exLiveComp).store.messages =
      exLiveComp.store.messages ++ [mkMessage "p1" "Pat" "patient" "hi" 5 6] := by
  constructor
  · exact (send_rejected_locally_in_handler "p1" "Pat" "patient" "   " 3 4
      NetOutcome.ok exLiveComp).1 (by decide)
  · have h := (send_rejected_locally_in_handler "p1" "Pat" "patient" " hi " 5 6
      NetOutcome.ok exLiveComp).2 (by decide) rfl rfl
    simpa using h

/-- Documents reachable in this lifecycle only ever carry the statuses
`waiting` or `active` while they exist (the `ended` update is only ever
committed together with the delete). -/
def statusOk (s : Store) : Bool :=
  match s.appointment with
  | none => true
  | some d => d.sessionStatus == "waiting" || d.sessionStatus == "active"

/-- The ordering waiting < active < ended of observed session states, with
document absence being the terminal `ended` observation. -/
def statusRank (s : Store) : Nat :=
  match s.appointment with
  | none => 2
  | some d =>
      if d.sessionStatus = "waiting" then 0
      else if d.sessionStatus = "active" then 1
      else 2

theorem statusOk_messages (s : Store) (l : List Message) :
    statusOk { s with messages := l } = statusOk s := rfl

theorem statusRank_messages (s : Store) (l : List Message) :
    statusRank { s with messages := l } = statusRank s := rfl

theorem statusRank_le_two (s : Store) : statusRank s ≤ 2 := by
  unfold statusRank
  cases s.appointment with
  | none => exact Nat.le_refl 2
  | some d =>
      rcases eq_or_ne d.sessionStatus "waiting" with h1 | h1 <;>
        rcases eq_or_ne d.sessionStatus "active" with h2 | h2 <;>
        simp [h1, h2]

theorem statusOk_not_ended (s : Store) (hok : statusOk s = true)
    (d : AppointmentDoc) (hd : s.appointment = some d) :
    d.sessionStatus ≠ "ended" := by
  intro h
  simp [statusOk, hd, h] at hok

/-- One coordinator operation hitting the shared store, with any parameters,
server time and network outcome. -/
inductive Step : Store → Store → Prop where
  | start (doctorId : String) (t : Nat) (net : NetOutcome) (s : Store) :
      Step s (startSession doctorId t net s).2
  | finish (userId reason : String) (t : Nat) (net : NetOutcome) (s : Store) :
      Step s (endSession userId reason t net s).2
  | send (senderId senderName senderRole msg : String) (tServer tClient : Nat)
      (net : NetOutcome) (s : Store) :
      Step s (sendMessage senderId senderName senderRole msg tServer tClient net s).2

theorem step_monotone (s s2 : Store) (hok : statusOk s = true) (h : Step s s2) :
    statusOk s2 = true ∧ statusRank s ≤ statusRank s2 := by
  cases h with
  | start doctorId t net s =>
      cases net with
      | failure e =>
          simp only [startSession, startSessionRaw]
          exact ⟨hok, Nat.le_refl _⟩
      | ok =>
          cases ha : s.appointment with
          | none =>
              simp only [startSession, startSessionRaw, updateStart, ha]
              exact ⟨hok, Nat.le_refl _⟩
          | some d =>
              have hd : d.sessionStatus = "waiting" ∨ d.sessionStatus = "active" := by
                have h2 := hok
                simp [statusOk, ha] at h2
                exact h2
              constructor
              · simp [startSession, startSessionRaw, updateStart, ha, statusOk]
              · simp only [startSession, startSessionRaw, updateStart, ha, statusRank]
                rcases hd with h | h <;> simp [h]
  | finish userId reason t net s =>
      rcases endSession_cases userId reason t net s with ⟨_, h2⟩ | ⟨_, _, h3⟩
      · rw [h2]
        exact ⟨rfl, statusRank_le_two s⟩
      · rw [h3]
        exact ⟨hok, Nat.le_refl _⟩
  | send senderId senderName senderRole msg tServer tClient net s =>
      cases net with
      | failure e =>
          simp only [sendMessage, sendMessageRaw]
          exact ⟨hok, Nat.le_refl _⟩
      | ok =>
          simp only [sendMessage, sendMessageRaw]
          rw [statusOk_messages, statusRank_messages]
          exact ⟨hok, Nat.le_refl _⟩

/-- C2: along every interleaving of coordinator operations (any parameters,
any store outcomes) from a store whose document carries a lawful status, the
status observed through `subscribeToAppointment` is monotone non-decreasing
in the order waiting < active < ended (absence of the document being the
terminal `ended` observation): no step ever lowers the rank, so no subscriber
sees `waiting` after `active`, or `active` after the end. -/
theorem sessionStatus_monotone (s s2 : Store) (hok : statusOk s = true)
    (h : Relation.ReflTransGen Step s s2) :
    statusOk s2 = true ∧ statusRank s ≤ statusRank s2 := by
  induction h with
  | refl => exact ⟨hok, Nat.le_refl _⟩
  | tail hab hbc ih =>
      rcases ih with ⟨hokb, hrank⟩
      rcases step_monotone _ _ hokb hbc with ⟨hokc, hrank2⟩
      exact ⟨hokc, Nat.le_trans hrank hrank2⟩

/-- A concrete freshly approved appointment, as created in
src/unnamed/part_008 with `sessionStatus: 'waiting'`. -/
def exWaitingDoc : AppointmentDoc :=
  { patientId := "p1", doctorId := "d1", sessionStatus := "waiting" }

/-- A concrete store holding that waiting appointment. -/
def exWaitingStore : Store := { appointment := some exWaitingDoc, messages := [] }

/-- Witness for C2: one doctor start step from the waiting store keeps the
status lawful and never lowers the rank. -/
theorem sessionStatus_monotone_witness :
    statusOk (startSession "d1" 5 NetOutcome.ok exWaitingStore).2 = true ∧
    statusRank exWaitingStore ≤
      statusRank (startSession "d1" 5 NetOutcome.ok exWaitingStore).2 :=
  sessionStatus_monotone exWaitingStore _ rfl
    (Relation.ReflTransGen.single (Step.start "d1" 5 NetOutcome.ok exWaitingStore))

/-- A service result is an explicit value: success with no error, or failure
carrying an error message. -/
def resultExplicit (r : OpResult) : Prop :=
  (r.success = true ∧ r.error = none) ∨ (r.success = false ∧ r.error.isSome = true)

/-- C7: each of `startSession`, `endSession` and `sendMessage` is a total
function into `{ success, error }` result values — every outcome, including
every injected store failure, is returned to the caller as such a value (the
`catch` branch), never escapes as an exception, and a store failure leaves
the store untouched. -/
theorem store_failures_returned_as_values
    (doctorId userId reason sid sname srole msg : String)
    (t tServer tClient : Nat) (net : NetOutcome) (s : Store) :
    resultExplicit (startSession doctorId t net s).1 ∧
    resultExplicit (endSession userId reason t net s).1 ∧
    resultExplicit (sendMessage sid sname srole msg tServer tClient net s).1 ∧
    (∀ e : String,
      (startSession doctorId t (NetOutcome.failure e) s).1 =
        { success := false, error := some e } ∧
      (endSession userId reason t (NetOutcome.failure e) s).1 =
        { success := false, error := some e } ∧
      (sendMessage sid sname srole msg tServer tClient (NetOutcome.failure e) s).1 =
        { success := false, error := some e } ∧
      (startSession doctorId t (NetOutcome.failure e) s).2 = s ∧
      (endSession userId reason t (NetOutcome.failure e) s).2 = s ∧
      (sendMessage sid sname srole msg tServer tClient (NetOutcome.failure e) s).2 = s) := by
  refine ⟨?_, ?_, ?_, fun e => ⟨rfl, rfl, rfl, rfl, rfl, rfl⟩⟩
  · cases net with
    | failure e => simp [startSession, startSessionRaw, resultExplicit]
    | ok =>
        cases ha : s.appointment with
        | none => simp [startSession, startSessionRaw, updateStart, ha, resultExplicit]
        | some d => simp [startSession, startSessionRaw, updateStart, ha, resultExplicit]
  · cases net with
    | failure e => simp [endSession, commitBatch, resultExplicit]
    | ok =>
        cases ha : s.appointment with
        | none =>
            simp [endSession, commitBatch, endSessionBatch, applyOps, applyOp, ha,
              resultExplicit]
        | some d =>
            simp [endSession, commitBatch, endSessionBatch, applyOps, applyOp, ha,
              resultExplicit]
  · cases net with
    | failure e => simp [sendMessage, sendMessageRaw, resultExplicit]
    | ok => simp [sendMessage, sendMessageRaw, resultExplicit]

/-- C8: ending a session whose appointment document is already gone is safe:
the batch rejects (update of a missing document), the rejection is caught and
returned as `{ success: false, error }`, no delete side effect is applied
(the store is unchanged), and the component's local `sessionHasEnded` flag
makes a second `handleEndSession` a strict no-op. -/
theorem endSession_idempotent_at_termination (userId reason : String) (t : Nat)
    (net : NetOutcome) (s : Store) (c : ComponentState)
    (hs : s.appointment = none) (hc : c.sessionHasEnded = true) :
    (endSession userId reason t net s).1.success = false ∧
    (endSession userId reason t net s).1.error.isSome = true ∧
    (endSession userId reason t net s).2 = s ∧
    handleEndSession userId reason t net c = c := by
  refine ⟨?_, ?_, ?_, by simp [handleEndSession, hc]⟩ <;>
    cases net <;>
    simp [endSession, commitBatch, endSessionBatch, applyOps, applyOp, hs]

/-- A concrete component state after the session has locally ended. -/
def exEndedComp : ComponentState :=
  { sessionHasEnded := true, countdownActive := false, deadlinePending := false,
    sessionStatus := "ended", appointmentData := none,
    errorMsg := none, store := emptyStore }

/-- Witness for C8 on the empty store and an already-ended component. -/
theorem endSession_idempotent_at_termination_witness :
    (endSession "p1" "manual" 9 NetOutcome.ok emptyStore).1.success = false ∧
    (endSession "p1" "manual" 9 NetOutcome.ok emptyStore).1.error.isSome = true ∧
    (endSession "p1" "manual" 9 NetOutcome.ok emptyStore).2 = emptyStore ∧
    handleEndSession "p1" "manual" 9 NetOutcome.ok exEndedComp = exEndedComp :=
  endSession_idempotent_at_termination "p1" "manual" 9 NetOutcome.ok emptyStore
    exEndedComp rfl rfl

/-- Counterexample to C9: on a stream error the messages callback receives
`[]` — exactly what it receives for a normal snapshot of an empty collection,
so the failure is not distinguishable from ordinary data. -/
theorem messages_error_indistinguishable :
    messagesCallbackArg (SubEvent.failure "stream down") =
      messagesCallbackArg (SubEvent.snapshot emptyStore) := rfl

/-- C9 (amended): only the appointment subscription surfaces stream errors
distinguishably — its callback argument carries `error = some e` on failure
and `error = none` on every ordinary snapshot (present or absent document).
The messages subscription swallows the error into an empty list. -/
theorem subscription_error_surfacing (e : String) (s : Store) :
    (appointmentCallbackArg (SubEvent.failure e)).error = some e ∧
    (appointmentCallbackArg (SubEvent.snapshot s)).error = none ∧
    messagesCallbackArg (SubEvent.failure e) = [] := by
  refine ⟨rfl, ?_, rfl⟩
  cases h : s.appointment <;> simp [appointmentCallbackArg, h]

/-- A plain `deleteDoc(appointmentRef)`. -/
def deleteAppointmentOnly (s : Store) : Store := { s with appointment := none }

/-- C10: the committed net effect of `endSession`'s update-then-delete batch
on the store equals a plain delete of the appointment document, and no
observable store state around the call (the state before, or the committed
state after, whether the commit succeeded or failed) ever holds an existing
document with `sessionStatus = 'ended'`: subscribers only ever observe the
transition from an existing document to an absent one. -/
theorem endSession_net_effect_is_delete (userId reason : String) (t : Nat)
    (net : NetOutcome) (s : Store) (hok : statusOk s = true) :
    ((endSession userId reason t net s).1.success = true →
      (endSession userId reason t net s).2 = deleteAppointmentOnly s) ∧
    (∀ o : Store, o = s ∨ o = (endSession userId reason t net s).2 →
      ∀ d, o.appointment = some d → d.sessionStatus ≠ "ended") := by
  constructor
  · intro hsucc
    rcases endSession_cases userId reason t net s with ⟨_, h2⟩ | ⟨h1, _, _⟩
    · rw [h2]; rfl
    · simp [h1] at hsucc
  · intro o ho d hd
    rcases ho with rfl | rfl
    · exact statusOk_not_ended o hok d hd
    · rcases endSession_cases userId reason t net s with ⟨_, h2⟩ | ⟨_, _, h3⟩
      · rw [h2] at hd
        simp at hd
      · rw [h3] at hd
        exact statusOk_not_ended s hok d hd

/-- Witness for C10: ending the concrete active session commits exactly the
state a plain delete would produce. -/
theorem endSession_net_effect_is_delete_witness :
    (endSession "d1" "time_up" 9 NetOutcome.ok exActiveStore).2 =
      deleteAppointmentOnly exActiveStore :=
  (endSession_net_effect_is_delete "d1" "time_up" 9 NetOutcome.ok exActiveStore rfl).1 rfl

end HealthPal
